import Mathlib

/-!
Verification of the metrics-logging coordinator of
`pytorch_lightning/trainer/connectors/logger_connector.py`.

Python dictionaries are embedded as association lists in which a later
entry shadows an earlier one (`dupdate d m = d ++ m` is extensionally
Python's `d.update(m)` under that lookup discipline).  Metric values are
embedded as `Int` scalars: the coordinator only moves values between
mappings, never computes with them.
-/

/-- Python runtime errors that the embedded code can raise. -/
inductive PyErr where
  | nameError (n : String)
  | typeError
  | keyError
  | valueError
  | attributeError
  | indexError
  | misconfiguration
  deriving DecidableEq, Repr

/-- A Python dict with values of type alpha: an association list where the
last entry for a key shadows earlier ones. -/
abbrev DictA (α : Type) : Type := List (String × α)

/-- Metric dictionaries: string keys, scalar (Int) values. -/
abbrev Dict : Type := DictA Int

/-- First-match association lookup. -/
def dget {α : Type} : DictA α → String → Option α
  | [], _ => none
  | (k', v) :: rest, k => if k' = k then some v else dget rest k

/-- Python dict lookup: the last entry for a key wins. -/
def lookupD {α : Type} (d : DictA α) (k : String) : Option α :=
  dget d.reverse k

/-- Left-biased choice on options. -/
def oor {α : Type} : Option α → Option α → Option α
  | some v, _ => some v
  | none, b => b

/-- Python `d.update(m)`: extensionally, append under last-match lookup. -/
def dupdate {α : Type} (d m : DictA α) : DictA α := d ++ m

/-- Python `del d[k]` / `d.pop(k)`'s removal effect. -/
def ddelete {α : Type} (d : DictA α) (k : String) : DictA α :=
  d.filter (fun e => e.1 ≠ k)

/-- Python `dict(ChainMap(*maps))`: the earliest map of the chain wins on a
key collision (`ChainMap` looks maps up left to right). -/
def dchain : List Dict → Dict
  | [] => []
  | m :: rest => dchain rest ++ m

/-- Reference lookup for a chain of maps: first map containing the key wins. -/
def chainLookup : List Dict → String → Option Int
  | [], _ => none
  | m :: rest, k => oor (lookupD m k) (chainLookup rest k)

theorem dget_append {α : Type} (a b : DictA α) (k : String) :
    dget (a ++ b) k = oor (dget a k) (dget b k) := by
  induction a with
  | nil => simp [dget, oor]
  | cons e rest ih =>
    obtain ⟨k', v⟩ := e
    by_cases h : k' = k <;> simp [dget, h, oor, ih]

theorem lookupD_append {α : Type} (a b : DictA α) (k : String) :
    lookupD (a ++ b) k = oor (lookupD b k) (lookupD a k) := by
  unfold lookupD
  rw [List.reverse_append, dget_append]

theorem lookupD_dchain (maps : List Dict) (k : String) :
    lookupD (dchain maps) k = chainLookup maps k := by
  induction maps with
  | nil => rfl
  | cons m rest ih =>
    simp only [dchain, chainLookup, lookupD_append, ih]

/-! ### Python string helpers used by the coordinator -/

/-- Auxiliary: accumulate the current group while splitting on a character. -/
def pySplitAux (sep : Char) : List Char → List Char → List (List Char)
  | [], acc => [acc.reverse]
  | c :: cs, acc =>
    if c = sep then acc.reverse :: pySplitAux sep cs [] else pySplitAux sep cs (c :: acc)

/-- Python `s.split(sep)` for a one-character separator. -/
def pySplitChar (sep : Char) (s : List Char) : List (List Char) :=
  pySplitAux sep s []

/-- Python `l[-1]` on the (never empty) split result. -/
def lastGroup (l : List (List Char)) : List Char :=
  l.getLastD []

/-- Check that `p` is a leading segment of `s` (character lists). -/
def lpre : List Char → List Char → Bool
  | [], _ => true
  | _ :: _, [] => false
  | a :: as_, b :: bs => a = b && lpre as_ bs

/-- Python substring test `needle in hay` (character lists). -/
def containsSub (needle : List Char) : List Char → Bool
  | [] => lpre needle []
  | c :: cs => lpre needle (c :: cs) || containsSub needle cs

/-- Numeric value of a decimal digit character. -/
def digitVal (c : Char) : Option Nat :=
  if c.isDigit then some (c.toNat - 48) else none

/-- Parse an unsigned decimal digit string. -/
def parseDigits : List Char → Option Nat
  | [] => none
  | [c] => digitVal c
  | c :: cs =>
    match digitVal c, parseDigits cs with
    | some d, some r => some (d * 10 ^ cs.length + r)
    | _, _ => none

/-- Python `int(s)` restricted to the optionally-signed decimal literals the
coordinator can encounter; any other string raises `ValueError`. -/
def parsePyInt : List Char → Option Int
  | '-' :: cs => (parseDigits cs).map (fun n => -(n : Int))
  | cs => (parseDigits cs).map (fun n => (n : Int))

/-! ### Stage identifiers (`LoggerStages`, `_determine_stage`) -/

instance {ε α : Type} [DecidableEq ε] [DecidableEq α] : DecidableEq (Except ε α) := by
  intro a b
  cases a <;> cases b <;> first
    | (apply isFalse; intro h; exact Except.noConfusion h)
    | (rename_i x y
       exact if h : x = y then isTrue (by rw [h]) else isFalse (by intro hc; cases hc; exact h rfl))

/-- Lexicographic code-point comparison of character lists (Python `<`). -/
def charListLt : List Char → List Char → Bool
  | [], [] => false
  | [], _ :: _ => true
  | _ :: _, [] => false
  | a :: as_, b :: bs =>
    if a.toNat < b.toNat then true
    else if a.toNat = b.toNat then charListLt as_ bs
    else false

/-- Python string comparison `a < b`. -/
def strLt (a b : String) : Bool := charListLt a.data b.data

/-- Insert a string into a `<`-sorted list (Python `sorted`, all distinct). -/
def insSorted (x : String) : List String → List String
  | [] => [x]
  | y :: ys => if strLt x y then x :: y :: ys else y :: insSorted x ys

/-- Python `sorted` on a list of distinct strings. -/
def pySorted (l : List String) : List String :=
  l.foldr insSorted []

/-- Values of the `LoggerStages` enum, in declaration order. -/
def loggerStageValues : List String := ["train", "validation", "test", "all"]

/-- Embeds `self.__stages = sorted([s.value for s in LoggerStages])`. -/
def lcStages : List String := pySorted loggerStageValues

/-- Embeds `self.__stages[1:]` (the stages excluding `all`). -/
def lcStagesTail : List String := lcStages.drop 1

/-- Embeds the class attribute
`__lookup_stages = {"0": "test", "1": "val", "True": "test", "False": "val"}`. -/
def lookupStages : DictA String :=
  [("0", "test"), ("1", "val"), ("True", "test"), ("False", "val")]

/-- An argument to `_determine_stage` (`Union[str, bool]`, plus the ints that
reach it through `str(...)` in practice). -/
inductive FlagInput where
  | ofString (s : String)
  | ofBool (b : Bool)
  | ofNat (n : Nat)
  deriving DecidableEq, Repr

/-- Python `str(...)` on a `FlagInput`. -/
def pyStr : FlagInput → String
  | .ofString s => s
  | .ofBool true => "True"
  | .ofBool false => "False"
  | .ofNat n => toString n

/-- Embeds `LoggerConnector._determine_stage` (source lines 153-164). -/
def determine_stage (x : FlagInput) : Except PyErr String :=
  let s := pyStr x
  if lcStagesTail.contains s then .ok s
  else
    match lookupD lookupStages s with
    | some v => .ok v
    | none => .error .misconfiguration

example : lcStages = ["all", "test", "train", "validation"] := by decide
example : lcStagesTail = ["test", "train", "validation"] := by decide
example : determine_stage (.ofString "test") = .ok "test" := by decide
example : determine_stage (.ofString "validation") = .ok "validation" := by decide
example : determine_stage (.ofString "0") = .ok "test" := by decide
example : determine_stage (.ofString "1") = .ok "val" := by decide
example : determine_stage (.ofBool false) = .ok "val" := by decide
example : determine_stage (.ofString "nope") = .error .misconfiguration := by decide

/-! ### Coordinator state (`LoggerConnector` plus the trainer flags it reads) -/

/-- Metrics a dataloader accumulated during an evaluation epoch, together
with the epoch-level values its (external, `step_result.py` is not part of
this repository) `reduce_on_epoch_end` reduction produces: `nsteps` is the
length of the step list, `rlog`, `rpbar` and `rfork` are
`get_epoch_log_metrics`, `get_epoch_pbar_metrics` and `get_forked_metrics`
of the reduced result. -/
structure DLMetrics where
  nsteps : Nat
  rlog : Dict
  rpbar : Dict
  rfork : Dict
  deriving DecidableEq, Repr

/-- State of a `LoggerConnector` together with the trainer fields the
connector reads or writes.  Backend calls (`agg_and_log_metrics`, `save`)
are recorded as events so that rank gating is observable. -/
structure LCState where
  callback_metrics : Dict
  logged_metrics : Dict
  progress_bar_metrics : Dict
  eval_loop_results : List Dict
  step_metrics : List DLMetrics
  testing : Bool
  sanity : Bool
  global_zero : Bool
  has_logger : Bool
  on_gpu : Bool
  gpu_mem : Bool
  dev_debug : Bool
  mem_map : Dict
  current_epoch : Int
  global_step : Int
  backend_events : List (Dict × Int)
  backend_saves : Nat
  deriving DecidableEq, Repr

/-- Embeds `LoggerConnector.add_progress_bar_metrics` (source lines 248-255):
each entry is scalarised (`.item()` is the identity on our scalar values)
and written into `progress_bar_metrics`. -/
def add_progress_bar_metrics (metrics : Dict) (s : LCState) : LCState :=
  { s with progress_bar_metrics := dupdate s.progress_bar_metrics metrics }

/-- Modelled from the spec: `trainer.metrics_to_scalars` is trainer code
that is not part of this repository; the spec says every tensor-valued
entry is converted to a plain scalar, which on already-scalar `Int` values
is the identity. -/
def metrics_to_scalars (m : Dict) : Dict := m

/-- Embeds `LoggerConnector.log_metrics` (source lines 209-246).  The
gpu-memory profile (`memory.get_memory_profile`, external) is the state's
`mem_map`.  Forwarding to the backend happens only on the global-zero rank;
`logged_metrics` is updated whenever a logger is configured. -/
def log_metrics (metrics grad_norm_dic : Dict) (step? : Option Int) (s : LCState) : LCState :=
  let metrics := if s.on_gpu && s.gpu_mem then dupdate metrics s.mem_map else metrics
  let metrics := dupdate metrics grad_norm_dic
  let scalar_metrics := metrics_to_scalars metrics
  let stepAndMetrics : Int × Dict :=
    match step?, lookupD scalar_metrics "step" with
    | none, some v => (v, ddelete scalar_metrics "step")
    | none, none => (s.global_step, dupdate scalar_metrics [("epoch", s.current_epoch)])
    | some st, _ => (st, scalar_metrics)
  let step := stepAndMetrics.1
  let scalar_metrics := stepAndMetrics.2
  if s.has_logger then
    let s :=
      if s.global_zero then
        { s with backend_events := s.backend_events ++ [(scalar_metrics, step)],
                 backend_saves := s.backend_saves + 1 }
      else s
    { s with logged_metrics := dupdate s.logged_metrics scalar_metrics }
  else s

/-- Embeds `LoggerConnector._get_evaluate_epoch_results` (source lines
266-286).  The verbose test print block is I/O only.  In test mode a deep
copy of `callback_metrics` (deep copy is the identity on pure values) is
appended, `debug_epoch` is popped when the dev debugger is enabled
(`KeyError` if absent), and the accumulated mappings are collapsed with
`dict(ChainMap(*...))`; then `eval_loop_results` is cleared. -/
def get_evaluate_epoch_results (s : LCState) : Except PyErr (List Dict × LCState) :=
  if s.testing then
    let cm := s.callback_metrics
    match s.dev_debug, lookupD cm "debug_epoch" with
    | true, none => .error .keyError
    | true, some _ =>
      let cm := ddelete cm "debug_epoch"
      let elr := s.eval_loop_results ++ [cm]
      .ok ([dchain elr], { s with eval_loop_results := [] })
    | false, _ =>
      let elr := s.eval_loop_results ++ [cm]
      .ok ([dchain elr], { s with eval_loop_results := [] })
  else
    .ok (s.eval_loop_results, { s with eval_loop_results := [] })

/-! ### Per-dataloader snapshots (`add_to_eval_loop_results`) -/

/-- The `"/dataloader_idx_"` marker as a character list. -/
def dlMarker : List Char := "/dataloader_idx_".data

/-- Python `"/dataloader_idx_" in key`. -/
def hasDLTag (key : String) : Bool := containsSub dlMarker key.data

/-- Embeds `int(key.split("_")[-1])`: the text after the last underscore of
the key, parsed as an integer (`none` means `ValueError`). -/
def dlIdxInKey (key : String) : Option Int :=
  parsePyInt (lastGroup (pySplitChar '_' key.data))

/-- Whether a `callback_metrics` key survives the dataloader filter for
index `dl_idx`: untagged keys always do, tagged keys only when their parsed
index matches. -/
def keepForDL (dl_idx : Nat) (key : String) : Bool :=
  !hasDLTag key || (match dlIdxInKey key with
                    | some j => j = (dl_idx : Int)
                    | none => false)

/-- Embeds `LoggerConnector.add_to_eval_loop_results` (source lines
355-363): deep-copy `callback_metrics`, drop every key tagged with a
different dataloader index, append the snapshot; a tagged key whose tail is
not an integer raises `ValueError`. -/
def add_to_eval_loop_results (dl_idx : Nat) (s : LCState) : Except PyErr LCState :=
  if s.callback_metrics.all (fun e => !hasDLTag e.1 || (dlIdxInKey e.1).isSome) then
    let snap := s.callback_metrics.filter (fun e => keepForDL dl_idx e.1)
    .ok { s with eval_loop_results := s.eval_loop_results ++ [snap] }
  else .error .valueError

example : hasDLTag "acc/dataloader_idx_1" = true := by decide
example : hasDLTag "val_loss" = false := by decide
example : dlIdxInKey "acc/dataloader_idx_1" = some 1 := by decide
example : keepForDL 1 "acc/dataloader_idx_0" = false := by decide
example : keepForDL 1 "acc/dataloader_idx_1" = true := by decide

/-! ### Evaluation results handed to the connector

`Result` and `EvalResult` live in `pytorch_lightning/core/step_result.py`,
which is not part of this repository; they are dict subclasses carrying
metric sub-maps as attributes.  An item therefore carries its dict content
and the attribute values the connector reads. -/

/-- One deprecated evaluation result: Python `None`, a bare scalar tensor,
a plain dict, a `Result` (content plus `callback_metrics`), or an
`EvalResult` (content plus `callback_metrics`, `epoch_pbar_metrics`,
`epoch_log_metrics`). -/
inductive EvalItem where
  | pynone
  | scalar (x : Int)
  | dictE (d : Dict)
  | resultE (content cb : Dict)
  | evalResultE (content cb epoch_pbar epoch_log : Dict)
  deriving DecidableEq, Repr

/-- Python `isinstance(x, Result)` (`EvalResult` subclasses `Result`). -/
def isResultItem : EvalItem → Bool
  | .resultE _ _ => true
  | .evalResultE _ _ _ _ => true
  | _ => false

/-- The `eval_results` argument as a whole: Python `None`, a single
non-list object, or a list of items. -/
inductive EvalArg where
  | noneArg
  | single (item : EvalItem)
  | many (items : List EvalItem)
  deriving DecidableEq, Repr

/-- Python `len(eval_results)`: `TypeError` on `None` and on a bare
zero-dimensional scalar tensor; the number of keys of a dict-like; the
length of a list. -/
def pyLen : EvalArg → Except PyErr Nat
  | .noneArg => .error .typeError
  | .single .pynone => .error .typeError
  | .single (.scalar _) => .error .typeError
  | .single (.dictE d) => .ok d.length
  | .single (.resultE c _) => .ok c.length
  | .single (.evalResultE c _ _ _) => .ok c.length
  | .many l => .ok l.length

/-- Python `eval_results[0]` when `len(eval_results) > 0`: the head of a
list; `KeyError` on a (string-keyed) dict-like subscripted with `0`. -/
def item0 : EvalArg → Except PyErr EvalItem
  | .many (x :: _) => .ok x
  | .many [] => .error .indexError
  | .single _ => .error .keyError
  | .noneArg => .error .typeError

/-- Modelled from the spec: `flatten_dict` (a utility outside this
repository) flattens nested mappings to flat keys; on the already-flat
mappings embedded here it is the identity. -/
def flatten_dict (d : Dict) : Dict := d

/-- Embeds lines 394-396 / 405-408: when `"val_loss"` is present,
synthesise `"checkpoint_on"` and `"early_stop_on"` aliases equal to it. -/
def valLossAlias (flat : Dict) : Dict :=
  match lookupD flat "val_loss" with
  | some v => flat ++ [("checkpoint_on", v), ("early_stop_on", v)]
  | none => flat

/-- The flattening of one legacy item in the `using_eval_result == False`
list branch (lines 387-391): a scalar becomes `{"val_loss": x}`, a
dict-like is `flatten_dict`-ed; `None` matches neither `isinstance` branch
and leaves `flat` as whatever the previous iteration bound (a `NameError`
on a first iteration). -/
def legacyFlat : EvalItem → Option Dict → Except PyErr Dict
  | .scalar x, _ => .ok [("val_loss", x)]
  | .dictE d, _ => .ok (flatten_dict d)
  | .resultE c _, _ => .ok (flatten_dict c)
  | .evalResultE c _ _ _, _ => .ok (flatten_dict c)
  | .pynone, some prev => .ok prev
  | .pynone, none => .error (.nameError "flat")

/-- The `using_eval_result == False` loop of `_track_callback_metrics`
(lines 385-397). -/
def legacyFlatLoop : List EvalItem → Option Dict → LCState → Except PyErr LCState
  | [], _, s => .ok s
  | item :: rest, prev, s =>
    match legacyFlat item prev with
    | .error e => .error e
    | .ok f =>
      let flat := valLossAlias f
      legacyFlatLoop rest (some flat)
        { s with callback_metrics := dupdate s.callback_metrics flat }

/-- The `using_eval_result == True` loop of `_track_callback_metrics`
(lines 379-383): merge each item's `callback_metrics` attribute
(`AttributeError` when the item has none). -/
def evalResultLoop : List EvalItem → LCState → Except PyErr LCState
  | [], s => .ok s
  | item :: rest, s =>
    match item with
    | .resultE _ cb =>
      evalResultLoop rest { s with callback_metrics := dupdate s.callback_metrics cb }
    | .evalResultE _ cb _ _ =>
      evalResultLoop rest { s with callback_metrics := dupdate s.callback_metrics cb }
    | _ => .error .attributeError

/-- Embeds `LoggerConnector._track_callback_metrics` (source lines
371-409): the initial guard returns untouched when the first element of a
non-empty `eval_results` is `None` or not a `Result`; otherwise the
eval-result or legacy branch merges into `callback_metrics`. -/
def track_callback_metrics (ev : EvalArg) (useEval : Bool) (s : LCState) :
    Except PyErr LCState :=
  match pyLen ev with
  | .error e => .error e
  | .ok n =>
    match (if n > 0 then (item0 ev).map (fun x => x = .pynone || !isResultItem x)
           else .ok false : Except PyErr Bool) with
    | .error e => .error e
    | .ok true => .ok s
    | .ok false =>
      if useEval then
        match ev with
        | .many l => evalResultLoop l s
        | .single x => evalResultLoop [x] s
        | .noneArg => .error .typeError
      else
        match ev with
        | .many l => legacyFlatLoop l none s
        | .single (.scalar x) =>
          .ok { s with callback_metrics :=
                  dupdate s.callback_metrics (valLossAlias [("val_loss", x)]) }
        | .single (.dictE d) =>
          .ok { s with callback_metrics :=
                  dupdate s.callback_metrics (valLossAlias (flatten_dict d)) }
        | .single (.resultE c _) =>
          .ok { s with callback_metrics :=
                  dupdate s.callback_metrics (valLossAlias (flatten_dict c)) }
        | .single (.evalResultE c _ _ _) =>
          .ok { s with callback_metrics :=
                  dupdate s.callback_metrics (valLossAlias (flatten_dict c)) }
        | .single .pynone => .error .typeError
        | .noneArg => .error .typeError

/-! ### Epoch-end tracking for evaluation -/

/-- The `epoch_logs` argument: an external `Result`-like object read only
through `get_epoch_log_metrics` and `get_epoch_pbar_metrics`, carried as
data. -/
structure Logs where
  epoch_log : Dict
  epoch_pbar : Dict
  deriving DecidableEq, Repr

/-- The per-dataloader reduction loop of `_track_callback_metrics_1_0`
(source lines 327-353), over `enumerate(step_metrics)`. -/
def reduceDLLoop : List (Nat × DLMetrics) → LCState → List Dict →
    Except PyErr (LCState × List Dict)
  | [], s, mtl => .ok (s, mtl)
  | (dl_idx, dl) :: rest, s, mtl =>
    if dl.nsteps = 0 then reduceDLLoop rest s mtl
    else
      let s := { s with logged_metrics := dupdate s.logged_metrics dl.rlog }
      let s := add_progress_bar_metrics dl.rpbar s
      let s := { s with callback_metrics :=
                   dupdate (dupdate (dupdate s.callback_metrics dl.rlog) dl.rpbar) dl.rfork }
      match add_to_eval_loop_results dl_idx s with
      | .error e => .error e
      | .ok s =>
        let mtl := if dl.rlog.length > 0 then mtl ++ [dl.rlog] else mtl
        reduceDLLoop rest s mtl

/-- Embeds `LoggerConnector._track_callback_metrics_1_0` (source lines
293-353).  Note that `evaluation_loop.step_metrics` is read and cleared
BEFORE the sanity-check guard returns. -/
def track_callback_metrics_1_0 (logs : Logs) (mtl : List Dict) (reduce_on_epoch : Bool)
    (s : LCState) : Except PyErr (LCState × List Dict) :=
  let step_metrics := s.step_metrics
  let s := { s with step_metrics := [] }
  if s.sanity then .ok (s, mtl)
  else
    let el := logs.epoch_log
    let ep := logs.epoch_pbar
    let s := { s with logged_metrics := dupdate s.logged_metrics el }
    let s := add_progress_bar_metrics ep s
    let s := { s with callback_metrics := dupdate (dupdate s.callback_metrics el) ep }
    let mtl := if el.length > 0 then mtl ++ [el] else mtl
    if reduce_on_epoch then reduceDLLoop step_metrics.enum s mtl
    else .ok (s, mtl)

/-- The per-result loop of
`__process_eval_epoch_end_results_and_log_legacy` (source lines 421-449);
`process_dict_result` is trainer code outside this repository, passed in as
`procDict` returning `(prog_bar_metrics, log_metrics, callback_metrics)`. -/
def legacyEpochEndLoop (test_mode : Bool) (procDict : EvalItem → Dict × Dict × Dict) :
    List EvalItem → LCState → LCState
  | [], s => s
  | result :: rest, s =>
    let pbarLogCb : Dict × Dict × Dict :=
      match result with
      | .evalResultE _ cb ep el => (ep, el, if test_mode then [] else cb)
      | r => procDict r
    let prog_bar_metrics := pbarLogCb.1
    let log_metrics' := pbarLogCb.2.1
    let callback_metrics' := pbarLogCb.2.2
    let dataloader_result_metrics :=
      dupdate (dupdate prog_bar_metrics log_metrics') callback_metrics'
    let s := add_progress_bar_metrics prog_bar_metrics s
    let s := if log_metrics'.length > 0 then log_metrics log_metrics' [] none s else s
    let s := { s with callback_metrics :=
                 dupdate (dupdate (dupdate s.callback_metrics callback_metrics')
                   log_metrics') prog_bar_metrics }
    let s := if dataloader_result_metrics.length > 0 then
               { s with eval_loop_results := s.eval_loop_results ++ [dataloader_result_metrics] }
             else s
    legacyEpochEndLoop test_mode procDict rest s

/-- Embeds `LoggerConnector.__process_eval_epoch_end_results_and_log_legacy`
(source lines 411-449): a no-op during the sanity check; otherwise wraps a
non-list argument into a list and runs the per-result loop. -/
def process_eval_epoch_end_legacy (ev : EvalArg) (test_mode : Bool)
    (procDict : EvalItem → Dict × Dict × Dict) (s : LCState) : Except PyErr LCState :=
  if s.sanity then .ok s
  else
    match ev with
    | .noneArg => .ok s
    | .single x =>
      match pyLen (.single x) with
      | .error e => .error e
      | .ok 0 => .ok s
      | .ok (_ + 1) => .ok (legacyEpochEndLoop test_mode procDict [x] s)
    | .many [] => .ok s
    | .many (x :: rest) => .ok (legacyEpochEndLoop test_mode procDict (x :: rest) s)

/-- Embeds `LoggerConnector.before_on_evaluation_epoch_end` (source lines
257-264).  The read
`cached_metrics(self.trainer.testing).get_as_list("before_on_batch_start",
"epoch_log_metrics")` is modelled from the spec (`cached_metrics` is not
defined anywhere in this snapshot): a pure read of previously cached epoch
log metrics, supplied as `cached_mtl`. -/
def before_on_evaluation_epoch_end (dep : EvalArg) (epoch_logs : Logs)
    (useEval test_mode : Bool) (cached_mtl : List Dict)
    (procDict : EvalItem → Dict × Dict × Dict) (s : LCState) : Except PyErr LCState :=
  match track_callback_metrics dep useEval s with
  | .error e => .error e
  | .ok s =>
    match track_callback_metrics_1_0 epoch_logs cached_mtl true s with
    | .error e => .error e
    | .ok (s, _mtl) => process_eval_epoch_end_legacy dep test_mode procDict s

/-! ### Training-step outputs (`EpochLoopResult.log_training_step_metrics`) -/

/-- An external structured `Result` object, read only through its metric
accessors, carried as data: `batch_log` / `batch_pbar` are
`get_batch_log_metrics` / `get_batch_pbar_metrics` (forked originals
excluded), `forked` is `get_forked_metrics`, `hasExtra` is the Python test
`'extra' in result`. -/
structure ResObj where
  batch_log : Dict
  batch_pbar : Dict
  forked : Dict
  hasExtra : Bool
  deriving DecidableEq, Repr

/-- The `training_step_output` of an `opt_closure_result`: a structured
`Result`, or a legacy object with `log_metrics` and `pbar_on_batch_end`
attributes. -/
inductive TrainStepOut where
  | res (r : ResObj)
  | legacy (log_metrics : Dict) (pbar_on_batch_end : Dict)
  deriving DecidableEq, Repr

/-- Embeds `EpochLoopResult.log_training_step_metrics` (source lines
74-108).  The function body references the names `callback_metrics` (line
87), `batch_log_metrics` (line 94) and `batch_callback_metrics` (line 108)
which are bound neither locally, nor as parameters, nor at module level, so
every execution raises `NameError`: on the structured path at line 87
(after computing the step's log, progress-bar and forked metrics), on the
legacy path at line 94 (after reading the two metric attributes). -/
def log_training_step_metrics (out : TrainStepOut) (_s : LCState) : Except PyErr LCState :=
  match out with
  | .res r =>
    let _metrics_to_log := r.batch_log
    let _step_pbar_metrics := r.batch_pbar
    let _forked_metrics := r.forked
    .error (.nameError "callback_metrics")
  | .legacy lm pb =>
    let _metrics_to_log := lm
    let _step_pbar_metrics := pb
    .error (.nameError "batch_log_metrics")

/-! ### Training epoch end (`log_train_epoch_end_metrics`) -/

/-- A sample inside the epoch output: a structured `Result` or a plain
(legacy) value. -/
inductive TrainSample where
  | resS (r : ResObj)
  | plain (d : Dict)
  deriving DecidableEq, Repr

/-- Python `isinstance(sample, Result)`. -/
def isResSample : TrainSample → Bool
  | .resS _ => true
  | .plain _ => false

/-- Python `'extra' in sample` (short-circuited: only evaluated on
`Result` samples). -/
def sampleHasExtra : TrainSample → Bool
  | .resS r => r.hasExtra
  | .plain _ => false

/-- One training step's output inside `epoch_output[optimizer_idx]`:
either a single sample or a tbptt list of samples. -/
inductive StepOut where
  | one (x : TrainSample)
  | tbptt (l : List TrainSample)
  deriving DecidableEq, Repr

/-- Embeds the `try` block of `log_train_epoch_end_metrics` (source lines
483-489): probe `opt_idx_outputs[0]` (and `[0][0]` when it is a list); an
`IndexError` there is caught and classifies the output as
`(is_result_obj, is_1_0_result) = (false, false)`. -/
def classifyEpochOutput (opt0 : List StepOut) (epochLen : Nat) : Bool × Bool :=
  match opt0 with
  | [] => (false, false)
  | st :: _ =>
    let sample? : Option TrainSample :=
      match st with
      | .tbptt [] => none
      | .tbptt (x :: _) => some x
      | .one x => some x
    match sample? with
    | none => (false, false)
    | some x =>
      let is_result_obj := decide (epochLen > 0) && isResSample x
      (is_result_obj, is_result_obj && sampleHasExtra x)

/-- Result of the (external) `model.training_epoch_end` hook on the legacy
path: a `Result` object (with `epoch_log_metrics`/`epoch_pbar_metrics`) or
a plain value routed through the trainer's `process_dict_result`. -/
inductive LegacyHookOut where
  | resultOut (epoch_log epoch_pbar : Dict)
  | dictOut (epoch_pbar epoch_log epoch_cb : Dict)
  deriving DecidableEq, Repr

/-- A metric accumulator (`checkpoint_accumulator` /
`early_stopping_accumulator`, external): its count and mean. -/
structure Accum where
  num_values : Nat
  meanv : Int
  deriving DecidableEq, Repr

/-- The common tail of `log_train_epoch_end_metrics` (source lines
521-535): log and merge epoch log metrics, merge epoch callback metrics,
merge epoch progress-bar metrics. -/
def trainEpochEndTail (epoch_log epoch_pbar epoch_cb : Dict) (s : LCState) : LCState :=
  let s :=
    if epoch_log.length > 0 then
      let s := log_metrics epoch_log [] none s
      { s with callback_metrics := dupdate s.callback_metrics epoch_log }
    else s
  let s := { s with callback_metrics := dupdate s.callback_metrics epoch_cb }
  if epoch_pbar.length > 0 then
    let s := add_progress_bar_metrics epoch_pbar s
    { s with callback_metrics := dupdate s.callback_metrics epoch_pbar }
  else s

/-- Embeds `LoggerConnector.log_train_epoch_end_metrics` (source lines
454-535).  External collaborators are passed as data: `overridden` is
`is_overridden('training_epoch_end', model)`; `path10` is the combined
outcome `(epoch_log_metrics, epoch_progress_bar_metrics)` of the
1.0 branch's model hook, auto-reduction and cached-metric merge (lines
496-509, all driven by model hooks and `Result` reductions outside this
repository, `Except` because the hook itself may raise); `legacyHook` is
the legacy overridden hook's mapped return (lines 579-598); `autoReduced`
is `__auto_reduce_results_on_epoch_end`'s value (line 604, variant-defined
reductions outside this repository).  Line 480 (`epoch_output[0]`) sits
BEFORE the `try` block, so an empty `epoch_output` raises `IndexError`;
an empty first-optimizer output is caught by the `try` and falls back to
the legacy path. -/
def log_train_epoch_end_metrics (epoch_output : List (List StepOut))
    (checkpoint_accumulator early_stopping_accumulator : Accum)
    (overridden : Bool) (path10 : Except PyErr (Dict × Dict))
    (legacyHook : LegacyHookOut) (autoReduced : Dict × Dict)
    (s : LCState) : Except PyErr LCState :=
  let epoch_callback_metrics : Dict :=
    (if checkpoint_accumulator.num_values > 0 then
       [("checkpoint_on", checkpoint_accumulator.meanv)] else []) ++
    (if early_stopping_accumulator.num_values > 0 then
       [("early_stop_on", early_stopping_accumulator.meanv)] else [])
  match epoch_output with
  | [] => .error .indexError
  | opt0 :: _ =>
    let cls := classifyEpochOutput opt0 epoch_output.length
    let is_result_obj := cls.1
    let is_1_0_result := cls.2
    if is_1_0_result then
      match path10 with
      | .error e => .error e
      | .ok (el, ep) => .ok (trainEpochEndTail el ep epoch_callback_metrics s)
    else
      let triple : Dict × Dict × Dict :=
        if overridden then
          match legacyHook with
          | .resultOut el ep => (el, ep, epoch_callback_metrics)
          | .dictOut pb lg cb => (lg, pb, cb)
        else if is_result_obj then
          (autoReduced.1, autoReduced.2, epoch_callback_metrics)
        else ([], [], epoch_callback_metrics)
      .ok (trainEpochEndTail triple.1 triple.2.1 triple.2.2 s)

/-! ### The scoped split-index region (`BatchSplitIdxManager`) -/

/-- State touched by the split-index scope: the trainer's `split_idx`, the
`split_idx` attribute the manager sets on each stage's cached
`EpochLoopResult`, the per-stage managers' own `split_idx` attributes, and
the connector's `_current_stage`. -/
structure SplitSt where
  trainerSplit : Option Int
  cached : String → Option Int
  mgrSplit : String → Option Int
  currentStage : Option String

/-- Pointwise update of a string-indexed table. -/
def setC (f : String → Option Int) (k : String) (v : Option Int) : String → Option Int :=
  fun k' => if k' = k then v else f k'

/-- Embeds `LoggerConnector.split_idx_manager` (source lines 166-171):
resolve the stage, record it in `_current_stage`, store the split index on
that stage's manager; `self._split_idx_manager[stage]` raises `KeyError`
when the resolved stage is not one of `__stages[1:]`. -/
def split_idx_manager (st : SplitSt) (flag : FlagInput) (v : Int) :
    SplitSt × Except PyErr String :=
  match determine_stage flag with
  | .error e => (st, .error e)
  | .ok stage =>
    let st1 := { st with currentStage := some stage }
    if lcStagesTail.contains stage then
      ({ st1 with mgrSplit := setC st1.mgrSplit stage (some v) }, .ok stage)
    else (st1, .error .keyError)

/-- Embeds `BatchSplitIdxManager.__enter__` (source lines 118-120): read
the manager's `split_idx` attribute (`AttributeError` if it was never set),
expose it as `trainer.split_idx` and as the stage's cached split index. -/
def splitEnter (st : SplitSt) (stage : String) : SplitSt × Option PyErr :=
  match st.mgrSplit stage with
  | none => (st, some .attributeError)
  | some sv =>
    ({ st with trainerSplit := some sv, cached := setC st.cached stage (some sv) }, none)

/-- Embeds `BatchSplitIdxManager.__exit__` (source lines 122-123): clear
the stage's cached split index, whatever ended the region. -/
def splitExit (st : SplitSt) (stage : String) : SplitSt :=
  { st with cached := setC st.cached stage none }

/-- A `with trainer.logger_connector.split_idx_manager(stage, v): body`
region.  The body returns its final state and an optional raised error; by
Python's `with` semantics `__exit__` runs on both normal and error exit
(and is skipped only when `__enter__` itself raised). -/
def withSplitRegion (st : SplitSt) (flag : FlagInput) (v : Int)
    (body : SplitSt → SplitSt × Option PyErr) : SplitSt × Option PyErr :=
  match split_idx_manager st flag v with
  | (st', .error e) => (st', some e)
  | (st', .ok stage) =>
    match splitEnter st' stage with
    | (stE, some e) => (stE, some e)
    | (stE, none) =>
      let bodyOut := body stE
      (splitExit bodyOut.1 stage, bodyOut.2)

/-! ### Further dictionary lemmas -/

theorem dget_filter {α : Type} (q : String → Bool) (d : DictA α) (k : String) :
    dget (d.filter (fun e => q e.1)) k = if q k then dget d k else none := by
  induction d with
  | nil => by_cases h : q k <;> simp [dget, h]
  | cons e rest ih =>
    obtain ⟨k', v⟩ := e
    by_cases hq : q k'
    · by_cases hk : k' = k
      · subst hk; simp [dget, hq, List.filter, ih]
      · simp [List.filter, hq, dget, hk, ih]
    · by_cases hk : k' = k
      · subst hk; simp [List.filter, hq, dget, ih]
      · simp [List.filter, hq, dget, hk, ih]

theorem lookupD_filter {α : Type} (q : String → Bool) (d : DictA α) (k : String) :
    lookupD (d.filter (fun e => q e.1)) k = if q k then lookupD d k else none := by
  unfold lookupD
  rw [← List.filter_reverse, dget_filter]

theorem lookupD_snoc_ne {α : Type} (d : DictA α) (k0 k : String) (v : α) (h : k0 ≠ k) :
    lookupD (d ++ [(k0, v)]) k = lookupD d k := by
  rw [lookupD_append]
  simp [lookupD, dget, h, oor]

/-- Claim C4: for every input value, `_determine_stage` stringifies it and
returns the stage token itself when it is one of the three stage tokens,
TEST for "0"/"True", VALIDATION for "1"/"False", and raises
`MisconfigurationException` otherwise.  The code instead returns the
string "val" — not the VALIDATION token "validation" — for "1" and
"False"; "val" is not a member of `__stages[1:]`, so the stage-keyed
tables reject it (`split_idx_manager` raises `KeyError` on these flags),
contradicting the code's own use of the resolved stage. -/
theorem determine_stage_val_bug :
    determine_stage (.ofString "test") = .ok "test" ∧
    determine_stage (.ofString "train") = .ok "train" ∧
    determine_stage (.ofString "validation") = .ok "validation" ∧
    determine_stage (.ofString "0") = .ok "test" ∧
    determine_stage (.ofBool true) = .ok "test" ∧
    determine_stage (.ofString "1") = .ok "val" ∧
    determine_stage (.ofBool false) = .ok "val" ∧
    ("val" : String) ≠ "validation" ∧
    lcStagesTail.contains "val" = false ∧
    (split_idx_manager ⟨none, fun _ => none, fun _ => none, none⟩ (.ofString "False") 0).2 =
      .error .keyError ∧
    determine_stage (.ofString "training") = .error .misconfiguration := by
  decide

/-- Claim C1: the claim states that `log_training_step_metrics` extracts
step metrics by dispatch on the output's type and merges them into the
coordinator's mappings without raising.  On the code, every call raises
`NameError`: the structured branch dereferences the unbound name
`callback_metrics` (line 87) and the legacy branch the unbound name
`batch_log_metrics` (line 94); no metric mapping is ever updated. -/
theorem log_training_step_metrics_raises (out : TrainStepOut) (s : LCState) :
    log_training_step_metrics out s =
      .error (.nameError (match out with
                          | .res _ => "callback_metrics"
                          | .legacy _ _ => "batch_log_metrics")) := by
  cases out <;> rfl

/-! ### Evaluation-epoch results: drain and collapse (claims about
`_get_evaluate_epoch_results`) -/

/-- A quiescent coordinator state used as the base of concrete scenarios. -/
def baseState : LCState :=
  { callback_metrics := [], logged_metrics := [], progress_bar_metrics := [],
    eval_loop_results := [], step_metrics := [], testing := false, sanity := false,
    global_zero := true, has_logger := true, on_gpu := false, gpu_mem := false,
    dev_debug := false, mem_map := [], current_epoch := 0, global_step := 0,
    backend_events := [], backend_saves := 0 }

/-- Test-mode state with a colliding key: one accumulated dataloader
mapping holds `k = 1`, the current `callback_metrics` holds `k = 2`. -/
def collideState : LCState :=
  { baseState with testing := true,
                   callback_metrics := [("k", 2)],
                   eval_loop_results := [[("k", 1)]] }

/-- Claim C2 counterexample: the claim says that on a key collision the
later mapping in the accumulation order wins.  `dict(ChainMap(*maps))`
gives precedence to the EARLIEST map: at `collideState` the snapshot of
`callback_metrics` (holding `k = 2`) is appended last, yet the collapsed
result carries `k = 1` from the earlier dataloader mapping. -/
theorem get_evaluate_epoch_results_later_loses :
    (match get_evaluate_epoch_results collideState with
     | .ok (res, _) => res.map (fun d => lookupD d "k")
     | .error _ => []) = [some 1] ∧ some (1 : Int) ≠ some 2 := by
  decide

/-- Claim C2 (amended): in test mode (with the dev debugger off, so the
debug-key pop does not fire), `_get_evaluate_epoch_results` appends a deep
copy of `callback_metrics` to `eval_loop_results`, returns the single
mapping collapsing all accumulated mappings — where on a key collision the
value from the EARLIER mapping in accumulation order wins — and clears
`eval_loop_results`. -/
theorem get_evaluate_epoch_results_collapse (s : LCState)
    (ht : s.testing = true) (hd : s.dev_debug = false) :
    get_evaluate_epoch_results s =
      .ok ([dchain (s.eval_loop_results ++ [s.callback_metrics])],
           { s with eval_loop_results := [] }) ∧
    (∀ maps k, lookupD (dchain maps) k = chainLookup maps k) := by
  constructor
  · simp only [get_evaluate_epoch_results, ht, hd, if_true]
  · exact lookupD_dchain

/-- Witness for C2's amended claim at `collideState`. -/
theorem get_evaluate_epoch_results_collapse_witness :
    collideState.testing = true ∧ collideState.dev_debug = false ∧
    get_evaluate_epoch_results collideState =
      .ok ([dchain (collideState.eval_loop_results ++ [collideState.callback_metrics])],
           { collideState with eval_loop_results := [] }) :=
  ⟨rfl, rfl, (get_evaluate_epoch_results_collapse collideState rfl rfl).1⟩

/-- Claim C3 counterexample: the claim says a second call with no
intervening epoch activity returns an empty result in both modes.  In test
mode the second call re-appends a snapshot of `callback_metrics` and
returns a singleton list again: at `collideState` the second read has
length 1, not 0. -/
theorem get_evaluate_epoch_results_second_read_nonempty :
    (match get_evaluate_epoch_results collideState with
     | .ok (_, s1) =>
       match get_evaluate_epoch_results s1 with
       | .ok (r2, _) => r2.length
       | .error _ => 0
     | .error _ => 0) = 1 ∧ (1 : Nat) ≠ 0 := by
  decide

/-- Claim C3 (amended): `eval_loop_results` is cleared (drained) by every
call, in both modes; starting from a state with non-empty
`eval_loop_results` (dev debugger off), the first call returns a non-empty
result, and the second call returns an empty result in non-test mode but a
singleton list (the merged `callback_metrics` snapshot) in test mode. -/
theorem get_evaluate_epoch_results_drain (s : LCState)
    (h1 : s.eval_loop_results ≠ []) (h2 : s.dev_debug = false) :
    ∃ r1 s1 r2 s2,
      get_evaluate_epoch_results s = .ok (r1, s1) ∧ r1 ≠ [] ∧
      s1.eval_loop_results = [] ∧
      get_evaluate_epoch_results s1 = .ok (r2, s2) ∧ s2.eval_loop_results = [] ∧
      (s.testing = false → r2 = []) ∧ (s.testing = true → r2.length = 1) := by
  cases ht : s.testing with
  | false =>
    refine ⟨s.eval_loop_results, { s with eval_loop_results := [] }, [],
            { s with eval_loop_results := [] }, ?_, h1, rfl, ?_, rfl, fun _ => rfl, ?_⟩
    · simp only [get_evaluate_epoch_results, ht, Bool.false_eq_true, if_false]
    · simp only [get_evaluate_epoch_results, ht, Bool.false_eq_true, if_false]
    · intro hc; exact absurd hc (by decide)
  | true =>
    refine ⟨[dchain (s.eval_loop_results ++ [s.callback_metrics])],
            { s with eval_loop_results := [] },
            [dchain ([] ++ [s.callback_metrics])],
            { s with eval_loop_results := [] }, ?_, by simp, rfl, ?_, rfl, ?_, fun _ => rfl⟩
    · simp only [get_evaluate_epoch_results, ht, if_true, h2]
    · simp only [get_evaluate_epoch_results, ht, if_true, h2]
    · intro hc; exact absurd hc (by decide)

/-- Witness for C3's amended claim at `collideState`. -/
theorem get_evaluate_epoch_results_drain_witness :
    collideState.eval_loop_results ≠ [] ∧ collideState.dev_debug = false ∧
    (∃ r1 s1 r2 s2,
      get_evaluate_epoch_results collideState = .ok (r1, s1) ∧ r1 ≠ [] ∧
      s1.eval_loop_results = [] ∧
      get_evaluate_epoch_results s1 = .ok (r2, s2) ∧ s2.eval_loop_results = [] ∧
      (collideState.testing = false → r2 = []) ∧
      (collideState.testing = true → r2.length = 1)) :=
  ⟨by decide, rfl, get_evaluate_epoch_results_drain collideState (by decide) rfl⟩

/-! ### Legacy flattening of evaluation results (`_track_callback_metrics`) -/

/-- Claim C6 counterexample: the claim says a bare scalar legacy result
`x` is flattened to `{"val_loss": x, "checkpoint_on": x, "early_stop_on":
x}` and merged into `callback_metrics`.  The guard at the top of
`_track_callback_metrics` returns early whenever the first element of a
non-empty `eval_results` is not a `Result`: a list-wrapped bare scalar
leaves the state untouched and merges nothing, and a bare un-wrapped
scalar raises `TypeError` at the `len()` check. -/
theorem track_callback_metrics_scalar_guard :
    track_callback_metrics (.many [.scalar 42]) false baseState = .ok baseState ∧
    lookupD baseState.callback_metrics "val_loss" = none ∧
    track_callback_metrics (.single (.scalar 42)) false baseState = .error .typeError := by
  decide

/-- Claim C6 (amended): the legacy flattening path with the `val_loss`
aliases exists in `_track_callback_metrics`, but the initial guard makes
it unreachable for a list-wrapped bare scalar (the call returns the state
unchanged); when the legacy branch is reached — first element a `Result`
object — the flattened mapping is merged into `callback_metrics`, and
whenever `val_loss` is present after flattening, `checkpoint_on` and
`early_stop_on` aliases equal to it are synthesised. -/
theorem track_callback_metrics_alias :
    (∀ (v : Int) (s : LCState),
       track_callback_metrics (.many [.scalar v]) false s = .ok s) ∧
    (∀ (s : LCState) (c cb : Dict),
       track_callback_metrics (.many [.resultE c cb]) false s =
         .ok { s with callback_metrics :=
                 dupdate s.callback_metrics (valLossAlias (flatten_dict c)) }) ∧
    (valLossAlias [("val_loss", (42 : Int))] =
       [("val_loss", 42), ("checkpoint_on", 42), ("early_stop_on", 42)]) ∧
    (∀ (d : Dict) (x : Int), lookupD d "val_loss" = some x →
       lookupD (valLossAlias d) "val_loss" = some x ∧
       lookupD (valLossAlias d) "checkpoint_on" = some x ∧
       lookupD (valLossAlias d) "early_stop_on" = some x) := by
  refine ⟨fun v s => rfl, fun s c cb => rfl, by decide, fun d x h => ?_⟩
  have e : valLossAlias d = (d ++ [("checkpoint_on", x)]) ++ [("early_stop_on", x)] := by
    unfold valLossAlias
    rw [h, List.append_assoc]
    rfl
  rw [e]
  refine ⟨?_, ?_, ?_⟩
  · rw [lookupD_snoc_ne _ _ _ _ (by decide), lookupD_snoc_ne _ _ _ _ (by decide)]
    exact h
  · rw [lookupD_snoc_ne _ _ _ _ (by decide), lookupD_append]
    simp [lookupD, dget, oor]
  · rw [lookupD_append]
    simp [lookupD, dget, oor]

/-- Witness for C6's amended claim: the spec's scenario value 42 flows
through the alias computation, and the benchmark alias lookups hold. -/
theorem track_callback_metrics_alias_witness :
    track_callback_metrics (.many [.scalar 42]) false baseState = .ok baseState ∧
    lookupD [("val_loss", (42 : Int))] "val_loss" = some 42 ∧
    lookupD (valLossAlias [("val_loss", (42 : Int))]) "checkpoint_on" = some 42 :=
  ⟨track_callback_metrics_alias.1 42 baseState, by decide,
   (track_callback_metrics_alias.2.2.2 [("val_loss", 42)] 42 (by decide)).2.1⟩

/-! ### Step logging (`log_metrics`) -/

/-- Evaluation of one `log_metrics` call with the default `step=None`, no
reserved `"step"` key and gpu memory profiling off: the scalarised
metrics (plus the convenience `"epoch"` entry) are merged into
`logged_metrics`; the backend is written and flushed only on the
global-zero rank. -/
theorem log_metrics_eval (s : LCState) (m g : Dict)
    (hl : s.has_logger = true) (hg : s.on_gpu = false)
    (hstep : lookupD (dupdate m g) "step" = none) :
    log_metrics m g none s =
      if s.global_zero then
        { s with backend_events := s.backend_events ++
                   [(dupdate (dupdate m g) [("epoch", s.current_epoch)], s.global_step)],
                 backend_saves := s.backend_saves + 1,
                 logged_metrics := dupdate s.logged_metrics
                   (dupdate (dupdate m g) [("epoch", s.current_epoch)]) }
      else
        { s with logged_metrics := dupdate s.logged_metrics
                   (dupdate (dupdate m g) [("epoch", s.current_epoch)]) } := by
  cases hz : s.global_zero <;>
    simp only [log_metrics, metrics_to_scalars, hg, Bool.false_and, if_false, hstep,
               hl, hz, if_true, Bool.false_eq_true]

/-- Claim C7 counterexample: the claim says the scalarised metrics are
unconditionally merged into `logged_metrics`.  When no logger is
configured (`trainer.logger is None`) the whole tracking block is skipped:
the logged key remains absent. -/
theorem log_metrics_no_logger_skips :
    lookupD (log_metrics [("a", 1)] [] none
      { baseState with has_logger := false }).logged_metrics "a" = none ∧
    (none : Option Int) ≠ some 1 := by
  decide

/-- Lookup through one logged block `L ++ (c ++ [("epoch", e)])` at a key
other than `"epoch"`. -/
theorem lookupD_step_block {α : Type} (L c : DictA α) (e : α) (k : String)
    (hk : k ≠ "epoch") :
    lookupD (L ++ (c ++ [("epoch", e)])) k = oor (lookupD c k) (lookupD L k) := by
  rw [lookupD_append, lookupD_append]
  have hsingle : lookupD [("epoch", e)] k = (none : Option α) := by
    simp [lookupD, dget, Ne.symm hk]
  rw [hsingle]
  rfl

/-- Field-level consequences of one `log_metrics` call (default step, no
reserved `"step"` key, gpu profiling off): configuration fields are
preserved, `logged_metrics` gains the scalarised metrics with the
`"epoch"` entry, the backend event/save counters grow exactly on the
global-zero rank and are untouched elsewhere. -/
theorem log_metrics_fields (s : LCState) (m g : Dict)
    (hl : s.has_logger = true) (hg : s.on_gpu = false)
    (hstep : lookupD (dupdate m g) "step" = none) :
    (log_metrics m g none s).has_logger = s.has_logger ∧
    (log_metrics m g none s).on_gpu = s.on_gpu ∧
    (log_metrics m g none s).global_zero = s.global_zero ∧
    (log_metrics m g none s).current_epoch = s.current_epoch ∧
    (s.global_zero = false →
       (log_metrics m g none s).backend_events = s.backend_events ∧
       (log_metrics m g none s).backend_saves = s.backend_saves) ∧
    (s.global_zero = true →
       (log_metrics m g none s).backend_events.length = s.backend_events.length + 1 ∧
       (log_metrics m g none s).backend_saves = s.backend_saves + 1) ∧
    (log_metrics m g none s).logged_metrics =
      dupdate s.logged_metrics (dupdate (dupdate m g) [("epoch", s.current_epoch)]) := by
  rw [log_metrics_eval s m g hl hg hstep]
  cases hz : s.global_zero <;> simp [hz]

/-- Claim C7 (amended): whenever a logger is configured, two successive
`log_metrics` calls (default step, no reserved `"step"` key, gpu profiling
off) merge into `logged_metrics` on every rank — for every key other than
the convenience `"epoch"` entry, the later call's value wins, else the
earlier call's, else the pre-existing one (union, never wholesale
replacement) — while backend forwarding and flushing happen only on the
global-zero rank. -/
theorem log_metrics_merge_monotone (s : LCState) (m1 g1 m2 g2 : Dict)
    (hl : s.has_logger = true) (hg : s.on_gpu = false)
    (h1 : lookupD (dupdate m1 g1) "step" = none)
    (h2 : lookupD (dupdate m2 g2) "step" = none) :
    (∀ k, k ≠ "epoch" →
       lookupD (log_metrics m2 g2 none (log_metrics m1 g1 none s)).logged_metrics k =
         oor (lookupD (dupdate m2 g2) k)
             (oor (lookupD (dupdate m1 g1) k) (lookupD s.logged_metrics k))) ∧
    (s.global_zero = false →
       (log_metrics m2 g2 none (log_metrics m1 g1 none s)).backend_events = s.backend_events ∧
       (log_metrics m2 g2 none (log_metrics m1 g1 none s)).backend_saves = s.backend_saves) ∧
    (s.global_zero = true →
       (log_metrics m2 g2 none (log_metrics m1 g1 none s)).backend_events.length =
         s.backend_events.length + 2) := by
  obtain ⟨fl, fg, fz, fe, fb0, fb1, flog⟩ := log_metrics_fields s m1 g1 hl hg h1
  obtain ⟨fl2, fg2, fz2, fe2, fb02, fb12, flog2⟩ :=
    log_metrics_fields (log_metrics m1 g1 none s) m2 g2 (fl.trans hl) (fg.trans hg) h2
  refine ⟨fun k hk => ?_, fun hz => ?_, fun hz => ?_⟩
  · rw [flog2, flog, fe]
    simp only [dupdate]
    rw [lookupD_step_block _ _ _ _ hk, lookupD_step_block _ _ _ _ hk]
  · obtain ⟨u1, u2⟩ := fb0 hz
    obtain ⟨v1, v2⟩ := fb02 (fz.trans hz)
    exact ⟨v1.trans u1, v2.trans u2⟩
  · obtain ⟨u1, u2⟩ := fb1 hz
    obtain ⟨v1, v2⟩ := fb12 (fz.trans hz)
    rw [v1, u1]

/-- Witness for C7's amended claim: two concrete calls with disjoint keys
from `baseState`. -/
theorem log_metrics_merge_monotone_witness :
    baseState.has_logger = true ∧ baseState.on_gpu = false ∧
    lookupD (dupdate [("a", (1 : Int))] []) "step" = none ∧
    lookupD (dupdate [("b", (2 : Int))] []) "step" = none ∧
    lookupD (log_metrics [("b", 2)] [] none
      (log_metrics [("a", 1)] [] none baseState)).logged_metrics "a" =
      oor (lookupD (dupdate [("b", (2 : Int))] []) "a")
          (oor (lookupD (dupdate [("a", (1 : Int))] []) "a")
               (lookupD baseState.logged_metrics "a")) :=
  ⟨rfl, rfl, by decide, by decide,
   (log_metrics_merge_monotone baseState [("a", 1)] [] [("b", 2)] []
      rfl rfl (by decide) (by decide)).1 "a" (by decide)⟩

/-! ### Per-dataloader snapshot filtering (`add_to_eval_loop_results`) -/

/-- Claim C8: the snapshot appended to `eval_loop_results` for dataloader
index `k` keeps a `"/dataloader_idx_<j>"`-tagged metric exactly when
`j = k`, drops every metric tagged with another dataloader index, and
keeps all untagged metrics. -/
theorem add_to_eval_loop_results_spec (s : LCState) (k : Nat)
    (hall : s.callback_metrics.all
      (fun e => !hasDLTag e.1 || (dlIdxInKey e.1).isSome) = true) :
    add_to_eval_loop_results k s =
      .ok { s with eval_loop_results := s.eval_loop_results ++
              [s.callback_metrics.filter (fun e => keepForDL k e.1)] } ∧
    (∀ key j, hasDLTag key = true → dlIdxInKey key = some j →
       lookupD (s.callback_metrics.filter (fun e => keepForDL k e.1)) key =
         if j = (k : Int) then lookupD s.callback_metrics key else none) ∧
    (∀ key, hasDLTag key = false →
       lookupD (s.callback_metrics.filter (fun e => keepForDL k e.1)) key =
         lookupD s.callback_metrics key) := by
  refine ⟨?_, fun key j ht hj => ?_, fun key hf => ?_⟩
  · simp only [add_to_eval_loop_results, hall, if_true]
  · rw [lookupD_filter (keepForDL k)]
    by_cases hjk : j = (k : Int)
    · simp [keepForDL, ht, hj, hjk]
    · simp [keepForDL, ht, hj, hjk]
  · rw [lookupD_filter (keepForDL k)]
    simp [keepForDL, hf]

/-- Concrete two-dataloader scenario from the specification. -/
def dlState : LCState :=
  { baseState with callback_metrics :=
      [("acc/dataloader_idx_0", 9), ("acc/dataloader_idx_1", 7)] }

/-- Witness for C8 at the spec's scenario: the forked snapshot for
dataloader index 1 is exactly the `idx_1` entry. -/
theorem add_to_eval_loop_results_spec_witness :
    dlState.callback_metrics.all
      (fun e => !hasDLTag e.1 || (dlIdxInKey e.1).isSome) = true ∧
    dlState.callback_metrics.filter (fun e => keepForDL 1 e.1) =
      [("acc/dataloader_idx_1", 7)] ∧
    add_to_eval_loop_results 1 dlState =
      .ok { dlState with eval_loop_results := dlState.eval_loop_results ++
              [dlState.callback_metrics.filter (fun e => keepForDL 1 e.1)] } :=
  ⟨by decide, by decide, (add_to_eval_loop_results_spec dlState 1 (by decide)).1⟩

/-! ### Sanity-check behaviour of the evaluation epoch end -/

/-- `_track_callback_metrics` on an empty list is the identity in both
dispatch modes (the guard is not triggered and both loops are empty). -/
theorem track_callback_metrics_empty (useEval : Bool) (s : LCState) :
    track_callback_metrics (.many []) useEval s = .ok s := by
  cases useEval <;> rfl

/-- `_track_callback_metrics_1_0` under an active sanity check: the
evaluation loop's `step_metrics` are read and cleared BEFORE the guard, so
the state comes back with `step_metrics` emptied and nothing else done. -/
theorem track_callback_metrics_1_0_sanity (logs : Logs) (mtl : List Dict)
    (r : Bool) (s : LCState) (hs : s.sanity = true) :
    track_callback_metrics_1_0 logs mtl r s = .ok ({ s with step_metrics := [] }, mtl) := by
  simp only [track_callback_metrics_1_0, hs, if_true]

/-- The legacy epoch-end processor is a no-op under an active sanity
check. -/
theorem process_eval_epoch_end_legacy_sanity (ev : EvalArg) (tm : Bool)
    (pd : EvalItem → Dict × Dict × Dict) (s : LCState) (hs : s.sanity = true) :
    process_eval_epoch_end_legacy ev tm pd s = .ok s := by
  unfold process_eval_epoch_end_legacy
  rw [hs]
  rfl

/-- Sanity-mode state with non-empty accumulated evaluation step
metrics. -/
def sanityState : LCState :=
  { baseState with sanity := true, step_metrics := [⟨1, [("m", 1)], [], []⟩] }

/-- Claim C9 counterexample: the claim says evaluation-epoch-end
processing is a complete no-op during the sanity check, leaving the
evaluation loop's accumulated step metrics unchanged.  The code clears
`evaluation_loop.step_metrics` before the sanity guard fires: at
`sanityState` the non-empty step metrics come back empty. -/
theorem before_eval_epoch_end_sanity_clears_step_metrics :
    (match before_on_evaluation_epoch_end (.many []) ⟨[], []⟩ true false []
             (fun _ => ([], [], [])) sanityState with
     | .ok s' => s'.step_metrics
     | .error _ => sanityState.step_metrics) = [] ∧
    sanityState.step_metrics ≠ [] := by
  decide

/-- Claim C9 (amended): while the sanity-check flag is active,
`before_on_evaluation_epoch_end` leaves `callback_metrics`,
`logged_metrics`, `progress_bar_metrics`, `eval_loop_results` and the
backend untouched when the deprecated eval results are empty — but the
evaluation loop's accumulated step metrics are cleared, and
`_track_callback_metrics` runs unguarded, so a non-empty deprecated
result list still merges its callback metrics even during the sanity
check. -/
theorem before_eval_epoch_end_sanity_frame (s : LCState) (logs : Logs)
    (useEval test_mode : Bool) (cached : List Dict)
    (procDict : EvalItem → Dict × Dict × Dict) (hs : s.sanity = true) :
    before_on_evaluation_epoch_end (.many []) logs useEval test_mode cached procDict s =
      .ok { s with step_metrics := [] } ∧
    (∀ c cb, before_on_evaluation_epoch_end (.many [.resultE c cb]) logs true test_mode
        cached procDict s =
      .ok { s with callback_metrics := dupdate s.callback_metrics cb,
                   step_metrics := [] }) := by
  constructor
  · unfold before_on_evaluation_epoch_end
    simp only [track_callback_metrics_empty,
      track_callback_metrics_1_0_sanity logs cached true s hs,
      process_eval_epoch_end_legacy_sanity (EvalArg.many []) test_mode procDict
        { s with step_metrics := [] } (by simpa using hs)]
  · intro c cb
    unfold before_on_evaluation_epoch_end
    simp only [show track_callback_metrics (.many [.resultE c cb]) true s =
        .ok { s with callback_metrics := dupdate s.callback_metrics cb } from rfl,
      track_callback_metrics_1_0_sanity logs cached true
        { s with callback_metrics := dupdate s.callback_metrics cb } (by simpa using hs),
      process_eval_epoch_end_legacy_sanity (EvalArg.many [.resultE c cb]) test_mode procDict
        { s with callback_metrics := dupdate s.callback_metrics cb, step_metrics := [] }
        (by simpa using hs)]

/-- Witness for C9's amended claim at `sanityState`. -/
theorem before_eval_epoch_end_sanity_frame_witness :
    sanityState.sanity = true ∧
    before_on_evaluation_epoch_end (.many []) ⟨[], []⟩ true false []
        (fun _ => ([], [], [])) sanityState =
      .ok { sanityState with step_metrics := [] } :=
  ⟨rfl, (before_eval_epoch_end_sanity_frame sanityState ⟨[], []⟩ true false []
          (fun _ => ([], [], [])) rfl).1⟩

/-! ### Empty-epoch fallback of the training epoch end -/

/-- Claim C5: when the first optimizer's output list is empty (so
inspecting the first optimizer's first step output is out of range), the
`IndexError` is caught by the `try` block: the output is classified as not
a structured result and `log_train_epoch_end_metrics` completes the legacy
path without raising, ending in the common metric-tracking tail. -/
theorem log_train_epoch_end_empty_fallback (rest : List (List StepOut))
    (ca ea : Accum) (p10 : Except PyErr (Dict × Dict)) (lh : LegacyHookOut)
    (ar : Dict × Dict) (s : LCState) :
    (∀ n, classifyEpochOutput [] n = (false, false)) ∧
    log_train_epoch_end_metrics ([] :: rest) ca ea false p10 lh ar s =
      .ok (trainEpochEndTail [] []
        ((if ca.num_values > 0 then [("checkpoint_on", ca.meanv)] else []) ++
         (if ea.num_values > 0 then [("early_stop_on", ea.meanv)] else [])) s) := by
  exact ⟨fun n => rfl, rfl⟩

/-! ### The scoped split-index region -/

/-- `_determine_stage` is the identity on the three stage tokens. -/
theorem determine_stage_token (tok : String) (h : lcStagesTail.contains tok = true) :
    determine_stage (.ofString tok) = .ok tok := by
  unfold determine_stage pyStr
  simp only [h, if_true]

/-- Evaluation of `split_idx_manager` on a stage token. -/
theorem split_idx_manager_token (st : SplitSt) (tok : String) (v : Int)
    (htok : lcStagesTail.contains tok = true) :
    split_idx_manager st (.ofString tok) v =
      ({ st with currentStage := some tok,
                 mgrSplit := setC st.mgrSplit tok (some v) }, .ok tok) := by
  unfold split_idx_manager
  simp only [determine_stage_token tok htok, htok, if_true]

/-- Claim C10: entering a split region through `split_idx_manager` sets
the stage's cached split index to the given value (leaving other stages
untouched), and the region clears it back to `None` on every exit path —
the body's outcome, error included, is irrelevant — so the cached split
index is non-null only while the stage's split region is active. -/
theorem split_region_scoped (st : SplitSt) (tok : String) (v : Int)
    (htok : lcStagesTail.contains tok = true) :
    (split_idx_manager st (.ofString tok) v).2 = .ok tok ∧
    (splitEnter (split_idx_manager st (.ofString tok) v).1 tok).2 = none ∧
    (splitEnter (split_idx_manager st (.ofString tok) v).1 tok).1.cached tok = some v ∧
    (∀ s', s' ≠ tok →
       (splitEnter (split_idx_manager st (.ofString tok) v).1 tok).1.cached s' =
         st.cached s') ∧
    (∀ body : SplitSt → SplitSt × Option PyErr,
       (withSplitRegion st (.ofString tok) v body).1.cached tok = none) ∧
    (∀ stB s', s' ≠ tok → (splitExit stB tok).cached s' = stB.cached s') := by
  have hman := split_idx_manager_token st tok v htok
  have henter2 : splitEnter
      { st with currentStage := some tok, mgrSplit := setC st.mgrSplit tok (some v) } tok =
      ({ st with currentStage := some tok,
                 mgrSplit := setC st.mgrSplit tok (some v),
                 trainerSplit := some v,
                 cached := setC st.cached tok (some v) }, none) := by
    unfold splitEnter
    simp [setC]
  have henter : splitEnter (split_idx_manager st (.ofString tok) v).1 tok =
      ({ st with currentStage := some tok,
                 mgrSplit := setC st.mgrSplit tok (some v),
                 trainerSplit := some v,
                 cached := setC st.cached tok (some v) }, none) := by
    rw [hman]
    exact henter2
  refine ⟨by rw [hman], by rw [henter], ?_, ?_, ?_, ?_⟩
  · rw [henter]
    simp [setC]
  · intro s' hs'
    rw [henter]
    simp [setC, hs']
  · intro body
    unfold withSplitRegion
    rw [hman]
    simp only [henter2]
    simp [splitExit, setC]
  · intro stB s' hs'
    simp [splitExit, setC, hs']

/-- Initial split-scope state: nothing set anywhere. -/
def splitSt0 : SplitSt := ⟨none, fun _ => none, fun _ => none, none⟩

/-- Witness for C10: a region on the `train` stage whose body raises; the
cached split index is still cleared. -/
theorem split_region_scoped_witness :
    lcStagesTail.contains "train" = true ∧
    (withSplitRegion splitSt0 (.ofString "train") 5
       (fun s => (s, some .valueError))).1.cached "train" = none :=
  ⟨by decide,
   (split_region_scoped splitSt0 "train" 5 (by decide)).2.2.2.2.1
     (fun s => (s, some .valueError))⟩
